import Mathlib

/-!
# Verification of `lib/rwsem.c` (r/w semaphore slow path)

Shallow embedding of the contention-handling functions of the reader/writer
semaphore in `src/lib/rwsem.c`: the wake engine `__rwsem_do_wake`, the writer
lock-stealing helper `try_get_writer_sem`, and the blocking acquire path
`rwsem_down_failed_common` with its `rwsem_down_read_failed` /
`rwsem_down_write_failed` wrappers.

Modelling conventions:
* `sem->count` is a 32-bit `signed long`; we model it as `Int`.  Overflow of
  the 32-bit word is explicitly out of scope for the algorithm (it is bounded
  by physical thread counts), so mathematical integers are faithful.  The
  field test `count & RWSEM_ACTIVE_MASK` extracts the unsigned low 16 bits of
  the two's-complement word, which for a non-wrapping word equals
  `count mod 2^16` (Euclidean remainder); we model it as `activeField`.
* `struct task_struct *` pointers are modelled as `Option Nat`: `some t` is a
  pointer to task `t`, `none` is `NULL`.  Reference counting
  (`get_task_struct` / `put_task_struct`) manages lifetimes only and is out of
  scope.
* The intrusive doubly-linked `wait_list` is modelled as `List Waiter`
  (head = `sem->wait_list.next`).  A waiter "linked in the list" is an element
  of the list; the caller-side pointer passed to `try_get_writer_sem` is
  modelled by the waiter's index in the list.
* Calls to `wake_up_process` are recorded as a list of events (the task
  pointer passed), in call order.
* Atomic counter operations interleave with other threads.  Where a claim is
  about such interleavings, the environment's interference is passed in as an
  explicit list of deltas applied to `count` at the atomic boundaries;
  `rwsem_atomic_update(d, sem)` returns the new value (a fetch-add returning
  the updated counter, as line 134 `- adjustment` and line 171 show).
-/

/-- `RWSEM_WAITING_FOR_READ` (rwsem.c line 37). -/
def RWSEM_WAITING_FOR_READ : Nat := 0x00000001

/-- `RWSEM_WAITING_FOR_WRITE` (rwsem.c line 38). -/
def RWSEM_WAITING_FOR_WRITE : Nat := 0x00000002

/-- Modelled from the spec: the bias constants of the State Counter live in
the rwsem header, which is not part of this core's source; their 32-bit
values are fixed by the comments in rwsem.c lines 44-45 (active part
`& 0x0000ffff`, waiting part `& 0xffff0000`) and the spec's description of
one active unit per reader and one waiting unit per queued waiter.
`RWSEM_ACTIVE_BIAS = 0x00000001`. -/
def RWSEM_ACTIVE_BIAS : Int := 1

/-- Modelled from the spec: `RWSEM_WAITING_BIAS = -0x00010000` (one unit of
the waiting part, rwsem.c line 45: waiting part is `count & 0xffff0000`). -/
def RWSEM_WAITING_BIAS : Int := -65536

/-- Modelled from the spec: `RWSEM_ACTIVE_WRITE_BIAS = RWSEM_WAITING_BIAS +
RWSEM_ACTIVE_BIAS`, the "reserve one active writer slot" adjustment. -/
def RWSEM_ACTIVE_WRITE_BIAS : Int := RWSEM_WAITING_BIAS + RWSEM_ACTIVE_BIAS

/-- `count & RWSEM_ACTIVE_MASK` with `RWSEM_ACTIVE_MASK = 0x0000ffff`
(rwsem.c line 44): the unsigned low 16 bits of the two's-complement word,
i.e. the Euclidean remainder of `count` modulo `2^16`. -/
def activeField (count : Int) : Int := count % 65536

/-- `struct rwsem_waiter` (rwsem.c lines 33-39): the task pointer (`none` is
`NULL`) and the intent flags.  The `list` linkage is represented by the
waiter's position in the `RwSemaphore.wait_list` below. -/
structure Waiter where
  task : Option Nat
  flags : Nat
deriving Repr, DecidableEq

/-- `struct rw_semaphore`: the atomic `count` and the FIFO `wait_list`
(head first). -/
structure RwSemaphore where
  count : Int
  wait_list : List Waiter
deriving Repr, DecidableEq

/-- Result of the wake engine: the updated semaphore and the arguments of the
`wake_up_process` calls it made, in order. -/
structure WakeResult where
  sem : RwSemaphore
  woken : List (Option Nat)
deriving Repr, DecidableEq

/-- The do-while loop at rwsem.c lines 78-88, entered with `waiter` = queue
head: `woken` starts by counting the head, then the loop advances and keeps
counting while the advanced-to waiter has `RWSEM_WAITING_FOR_READ` set,
stopping at the end of the list.  `wokenCount rest` is the final `woken`
value when `rest` is the part of the queue after the head. -/
def wokenCount : List Waiter → Nat
  | [] => 1
  | w :: rest =>
    if w.flags &&& RWSEM_WAITING_FOR_READ ≠ 0 then 1 + wokenCount rest else 1

/-- The in-memory wait list reachable from `sem->wait_list.next` after `k`
iterations of the grant loop at rwsem.c lines 98-107 have run (granting a run
of `n` waiters in total): each completed iteration has set its waiter's
`task` to `NULL` (line 104) in place, but the list head is relinked past the
granted run only after the whole loop (lines 109-110), so the first `k`
waiters are cleared yet still linked. -/
def wakeLoopState (l : List Waiter) (k : Nat) : List Waiter :=
  (l.take k).map (fun w => { w with task := none }) ++ l.drop k

/-- `__rwsem_do_wake` (rwsem.c lines 51-114).

The function declares `struct rwsem_waiter *waiter` without initialising it.
When `downgrading` is false, control falls directly to line 63
`wake_up_process(waiter->task)` and `goto out`: the queue head is never read
and `waiter` still holds the indeterminate initial contents of the stack
slot, which we pass in explicitly as `uninit`.  Only a downgrading call
reaches `dont_wake_writers` (line 68), which loads the head, returns
unchanged if the head waits for write, and otherwise grants the contiguous
run of readers at the front: a single `rwsem_atomic_add` of
`woken * (RWSEM_ACTIVE_BIAS - RWSEM_WAITING_BIAS)` (minus
`RWSEM_ACTIVE_BIAS` if not downgrading — dead on this path), then the grant
loop clears each granted waiter's `task` and wakes it, and lines 109-110
relink the head past the run.  Callers guarantee `wait_list` non-empty; on
`[]` the model returns unchanged (`list_entry` on an empty list would read
the list head itself as a waiter). -/
def __rwsem_do_wake (uninit : Waiter) (sem : RwSemaphore) (downgrading : Bool) :
    WakeResult :=
  if downgrading = false then
    -- lines 62-64: wake_up_process(waiter->task); goto out — `waiter` unset
    { sem := sem, woken := [uninit.task] }
  else
    match sem.wait_list with
    | [] => { sem := sem, woken := [] }
    | waiter :: rest =>
      if waiter.flags &&& RWSEM_WAITING_FOR_WRITE ≠ 0 then
        -- lines 69-70: head waits for write, goto out
        { sem := sem, woken := [] }
      else
        -- readers_only, lines 77-110
        let woken : Nat := wokenCount rest
        let adj : Int :=
          (woken : Int) * (RWSEM_ACTIVE_BIAS - RWSEM_WAITING_BIAS) -
            (if downgrading = false then RWSEM_ACTIVE_BIAS else 0)
        let granted := (waiter :: rest).take woken
        { sem := { count := sem.count + adj,
                   wait_list := ((waiter :: rest)).drop woken },
          woken := granted.map (fun w => w.task) }

/-- The `try_again_write` loop of `try_get_writer_sem` (rwsem.c lines
133-148), parametrised by the interference of other threads on the shared
counter.  Each potential iteration is given a pair `(d1, d2)` of deltas the
environment adds to `count` before our fetch-add and between our fetch-add
and our rollback; once the interference list is exhausted the environment is
quiescent (`d1 = d2 = 0`), in which case one more iteration necessarily
terminates (the base case inlines that final iteration: with `oldcount = c`,
either the active field of `c` is zero and the attempt succeeds, or the
rollback observes `c + adjustment - adjustment = c` whose active field is
non-zero, and the function reports failure).  Returns the C result
(`true` = 1, `false` = 0) and the final counter value. -/
def tryStealLoop (adjustment : Int) (c : Int) :
    List (Int × Int) → Bool × Int
  | [] =>
    if activeField c = 0 then (true, c + adjustment) else (false, c)
  | (d1, d2) :: rest =>
    -- oldcount = rwsem_atomic_update(adjustment, sem) - adjustment
    let oldcount := c + d1
    if activeField oldcount = 0 then (true, oldcount + adjustment)
    else
      -- rwsem_atomic_update(-adjustment, sem)
      let rolledback := oldcount + adjustment + d2 - adjustment
      if activeField rolledback ≠ 0 then (false, rolledback)
      else tryStealLoop adjustment rolledback rest

/-- The candidate adjustment computed at rwsem.c lines 128-131, for the call
whose `waiter` argument points at entry `i` of `wait_list`:
`RWSEM_ACTIVE_WRITE_BIAS`, minus `RWSEM_WAITING_BIAS` when
`fwaiter == waiter` (the caller is the head, `i = 0`) and
`waiter->list.next == &sem->wait_list` (the caller is the last entry,
`i + 1 = length`). -/
def stealAdjustment (sem : RwSemaphore) (i : Nat) : Int :=
  RWSEM_ACTIVE_WRITE_BIAS -
    (if i = 0 ∧ i + 1 = sem.wait_list.length then RWSEM_WAITING_BIAS else 0)

/-- Result of `try_get_writer_sem`: the C return value (`true` = 1), the
updated semaphore, and the final state of the caller's waiter record (which
lives on the caller's stack; on success it has been unlinked from
`wait_list`, so the list no longer shows it). -/
structure StealResult where
  res : Bool
  sem : RwSemaphore
  waiter : Waiter
deriving Repr, DecidableEq

/-- `try_get_writer_sem` (rwsem.c lines 117-149).  The caller holds
`sem->wait_lock` and passes a waiter linked in `wait_list`, modelled by its
index `i` (`i < wait_list.length`); `env` is the counter interference of
other threads (see `tryStealLoop`).  The function reads the head `fwaiter`
and returns 0 unless it waits for write; otherwise it computes the
adjustment (lines 128-131) and runs the `try_again_write` loop.  On success
it unlinks the waiter (`list_del`), drops the task reference and makes the
task runnable — the waiter's `task` field itself is not written — and
returns 1.  On failure the waiter and the list are untouched. -/
def try_get_writer_sem (sem : RwSemaphore) (i : Nat) (env : List (Int × Int)) :
    StealResult :=
  let waiter := sem.wait_list.getD i { task := none, flags := 0 }
  match sem.wait_list with
  | [] => { res := false, sem := sem, waiter := waiter }
  | fwaiter :: _ =>
    if fwaiter.flags &&& RWSEM_WAITING_FOR_WRITE = 0 then
      -- line 125-126: only steal when first waiter is writing
      { res := false, sem := sem, waiter := waiter }
    else
      let adjustment := stealAdjustment sem i
      match tryStealLoop adjustment sem.count env with
      | (true, c) =>
        { res := true,
          sem := { count := c, wait_list := sem.wait_list.eraseIdx i },
          waiter := waiter }
      | (false, c) =>
        { res := false, sem := { sem with count := c }, waiter := waiter }

/-- Result of the enqueue phase of `rwsem_down_failed_common`: the semaphore
after the critical section, whether `__rwsem_do_wake` was invoked, and the
wake events it produced. -/
structure EnqueueResult where
  sem : RwSemaphore
  wakeInvoked : Bool
  woken : List (Option Nat)
deriving Repr, DecidableEq

/-- The critical section of `rwsem_down_failed_common` (rwsem.c lines
161-177), i.e. the `INIT→QUEUED` transition, for the current task `tsk`
whose waiter carries `flags` (set by the caller at line 209 or 223): under
`sem->wait_lock`, set `waiter->task = tsk` (taking a task reference), append
the waiter at the tail of `wait_list`, atomically apply `adjustment`
obtaining the new `count`, and if the new count's active field is zero call
`__rwsem_do_wake(sem, 0)` — all before the unlock at line 177. -/
def rwsem_down_failed_common_enqueue (uninit : Waiter) (sem : RwSemaphore)
    (tsk : Nat) (flags : Nat) (adjustment : Int) : EnqueueResult :=
  let waiter : Waiter := { task := some tsk, flags := flags }
  let sem1 : RwSemaphore :=
    { count := sem.count + adjustment, wait_list := sem.wait_list ++ [waiter] }
  if activeField sem1.count = 0 then
    let r := __rwsem_do_wake uninit sem1 false
    { sem := r.sem, wakeInvoked := true, woken := r.woken }
  else
    { sem := sem1, wakeInvoked := false, woken := [] }

/-- The enqueue phase of `rwsem_down_read_failed` (rwsem.c lines 204-213):
flags `RWSEM_WAITING_FOR_READ`, adjustment
`RWSEM_WAITING_BIAS - RWSEM_ACTIVE_BIAS`. -/
def rwsem_down_read_failed_enqueue (uninit : Waiter) (sem : RwSemaphore)
    (tsk : Nat) : EnqueueResult :=
  rwsem_down_failed_common_enqueue uninit sem tsk RWSEM_WAITING_FOR_READ
    (RWSEM_WAITING_BIAS - RWSEM_ACTIVE_BIAS)

/-- The enqueue phase of `rwsem_down_write_failed` (rwsem.c lines 218-227):
flags `RWSEM_WAITING_FOR_WRITE`, adjustment `-RWSEM_ACTIVE_BIAS`. -/
def rwsem_down_write_failed_enqueue (uninit : Waiter) (sem : RwSemaphore)
    (tsk : Nat) : EnqueueResult :=
  rwsem_down_failed_common_enqueue uninit sem tsk RWSEM_WAITING_FOR_WRITE
    (-RWSEM_ACTIVE_BIAS)

/-- What the environment (other threads) does while this thread sleeps in one
round of the wait loop: it may clear the waiter's `task` field (the wake
engine of another thread granting the lock), and it may move the shared
counter by `countDelta`; `stealEnv` is the counter interference during this
round's own `try_get_writer_sem` call (see `tryStealLoop`). -/
structure WaitEnv where
  clearTask : Bool
  countDelta : Int
  stealEnv : List (Int × Int)
deriving Repr, DecidableEq

/-- Outcome of the wait loop: `granted` via `!waiter->task` (line 181-182),
`stolen` via `try_get_writer_sem` success (lines 186-190), or `waiting` when
the modelled schedule ends with the thread still looping. -/
inductive WaitOutcome where
  | granted (sem : RwSemaphore)
  | stolen (sem : RwSemaphore)
  | waiting (sem : RwSemaphore) (waiter : Waiter)
deriving Repr, DecidableEq

/-- The wait loop of `rwsem_down_failed_common` (rwsem.c lines 180-194).

The source here is ill-formed C: line 186 tests an undeclared identifier
`flags` (no such local or parameter exists in this function) and line 187
passes `&waiter`, of type `struct rwsem_waiter **`, where
`try_get_writer_sem` expects a `struct rwsem_waiter *`.  Modelled from the
spec: the writer path of `QUEUED→GRANTED` tests the waiter's own intent and
passes the waiter itself, i.e. the evident reading `waiter->flags ==
RWSEM_WAITING_FOR_WRITE` and `try_get_writer_sem(sem, waiter)`.

Each schedule entry is one loop round: test `waiter->task`; if cleared,
break (granted).  Otherwise take `wait_lock`; if the waiter's flags equal
`RWSEM_WAITING_FOR_WRITE`, call `try_get_writer_sem` — on success unlock and
return.  Otherwise unlock, `schedule()` (during which the environment acts),
re-mark the task uninterruptible, and loop.  `i` is the waiter's index in
`wait_list` (the modelled environment does not reorder the list). -/
def rwsem_wait_loop (sem : RwSemaphore) (waiter : Waiter) (i : Nat) :
    List WaitEnv → WaitOutcome
  | [] => .waiting sem waiter
  | act :: sched =>
    if waiter.task = none then .granted sem
    else
      if waiter.flags = RWSEM_WAITING_FOR_WRITE then
        let r := try_get_writer_sem sem i act.stealEnv
        if r.res then .stolen r.sem
        else
          let sem' : RwSemaphore := { r.sem with count := r.sem.count + act.countDelta }
          let waiter' : Waiter :=
            if act.clearTask then { waiter with task := none } else waiter
          rwsem_wait_loop sem' waiter' i sched
      else
        let sem' : RwSemaphore := { sem with count := sem.count + act.countDelta }
        let waiter' : Waiter :=
          if act.clearTask then { waiter with task := none } else waiter
        rwsem_wait_loop sem' waiter' i sched

/-- The do-while count equals one (the head) plus the length of the maximal
prefix of read-waiters of the rest of the queue. -/
theorem wokenCount_eq_takeWhile (l : List Waiter) :
    wokenCount l =
      1 + (l.takeWhile (fun w => w.flags &&& RWSEM_WAITING_FOR_READ != 0)).length := by
  induction l with
  | nil => rfl
  | cons w rest ih =>
    by_cases h : w.flags &&& RWSEM_WAITING_FOR_READ ≠ 0
    · have hb : (w.flags &&& RWSEM_WAITING_FOR_READ != 0) = true := by
        simpa using h
      simp [wokenCount, List.takeWhile_cons, h, hb, ih]
      omega
    · have hb : (w.flags &&& RWSEM_WAITING_FOR_READ != 0) = false := by
        simpa using h
      simp at h
      simp [wokenCount, List.takeWhile_cons, h, hb]

/-- C1: the claim states that a non-downgrading call of the wake engine on a
queue headed by a writer-waiter first reads that head waiter and wakes
exactly its thread.  In the source this path never assigns `waiter`: for
every state and every content `u` of the uninitialized stack slot, the
result wakes `u.task` and is independent of the queue — the head is never
read (the statement quantifies over arbitrary `sem`, with no constraint on
the head's intent, because the code performs no such test either). -/
theorem rwsem_do_wake_nondowngrade_wakes_uninitialized
    (u : Waiter) (sem : RwSemaphore) :
    __rwsem_do_wake u sem false = { sem := sem, woken := [u.task] } := rfl

/-- C10: a downgrading call of the wake engine whose queue head waits for
write returns with the semaphore (count and wait list, hence every waiter
record) unchanged and wakes no thread. -/
theorem rwsem_do_wake_downgrade_writer_head_frame
    (u : Waiter) (sem : RwSemaphore) (w : Waiter) (rest : List Waiter)
    (hl : sem.wait_list = w :: rest)
    (hw : w.flags &&& RWSEM_WAITING_FOR_WRITE ≠ 0) :
    __rwsem_do_wake u sem true = { sem := sem, woken := [] } := by
  obtain ⟨c, l⟩ := sem
  simp only at hl
  subst hl
  simp [__rwsem_do_wake, hw]

/-- Witness for C10 at a concrete downgrade call with a writer at the head. -/
theorem rwsem_do_wake_downgrade_writer_head_frame_witness :
    __rwsem_do_wake { task := some 9, flags := 0 }
      { count := -65536, wait_list := [{ task := some 4, flags := 2 }] } true
      = { sem := { count := -65536, wait_list := [{ task := some 4, flags := 2 }] },
          woken := [] } :=
  rwsem_do_wake_downgrade_writer_head_frame
    { task := some 9, flags := 0 }
    { count := -65536, wait_list := [{ task := some 4, flags := 2 }] }
    { task := some 4, flags := 2 } [] rfl (by decide)

/-- C9: the candidate adjustment of the lock-stealing helper is
`RWSEM_ACTIVE_WRITE_BIAS`, with `RWSEM_WAITING_BIAS` additionally
subtracted exactly when the calling waiter (at index `i`) is the head of
`wait_list` and is its only entry. -/
theorem stealAdjustment_spec (sem : RwSemaphore) (i : Nat) :
    stealAdjustment sem i =
      if i = 0 ∧ sem.wait_list.length = 1 then
        RWSEM_ACTIVE_WRITE_BIAS - RWSEM_WAITING_BIAS
      else
        RWSEM_ACTIVE_WRITE_BIAS := by
  have hiff : (i = 0 ∧ i + 1 = sem.wait_list.length) ↔
      (i = 0 ∧ sem.wait_list.length = 1) := by omega
  rw [stealAdjustment, if_congr hiff rfl rfl]
  split
  · rfl
  · exact sub_zero _

/-- C3: the reader-batch computation.  On the only path that reaches
`readers_only` — a downgrading call whose head does not wait for write — the
engine applies a single atomic add of
`wokenCount rest * (RWSEM_ACTIVE_BIAS - RWSEM_WAITING_BIAS)` with no
additional `RWSEM_ACTIVE_BIAS` subtraction (the `!downgrading` subtraction
at lines 92-94 is dead), where `wokenCount rest` is the length of the
maximal contiguous run of reader-waiters starting at the head.  The claim's
non-downgrade reader-head case never reaches this code: the final conjunct
evaluates the engine at a non-downgrading call with a reader at the head and
shows the counter is left untouched and the task of the uninitialized stack
variable is woken instead. -/
theorem rwsem_do_wake_reader_batch :
    (∀ (u : Waiter) (sem : RwSemaphore) (w : Waiter) (rest : List Waiter),
        sem.wait_list = w :: rest →
        w.flags &&& RWSEM_WAITING_FOR_WRITE = 0 →
        (__rwsem_do_wake u sem true).sem.count =
            sem.count +
              (wokenCount rest : Int) * (RWSEM_ACTIVE_BIAS - RWSEM_WAITING_BIAS) ∧
          (w.flags &&& RWSEM_WAITING_FOR_READ ≠ 0 →
            (wokenCount rest : Int) =
              ((w :: rest).takeWhile
                  (fun x => x.flags &&& RWSEM_WAITING_FOR_READ != 0)).length)) ∧
      __rwsem_do_wake { task := some 99, flags := 0 }
          { count := -65535, wait_list := [{ task := some 3, flags := 1 }] } false
        = { sem := { count := -65535, wait_list := [{ task := some 3, flags := 1 }] },
            woken := [some 99] } := by
  constructor
  · intro u sem w rest hl hw
    obtain ⟨c, l⟩ := sem
    simp only at hl
    subst hl
    constructor
    · simp [__rwsem_do_wake, hw]
    · intro hr
      have hb : (w.flags &&& RWSEM_WAITING_FOR_READ != 0) = true := by
        simpa using hr
      rw [List.takeWhile_cons, hb, if_pos rfl]
      simp [wokenCount_eq_takeWhile]
      omega
  · decide

/-- Witness for C3's batch computation at a concrete downgrade call with a
reader at the head followed by a writer: the run has length 1 and the
counter gets the single batch adjustment. -/
theorem rwsem_do_wake_reader_batch_witness :
    (__rwsem_do_wake { task := some 9, flags := 0 }
        { count := -131072,
          wait_list := [{ task := some 1, flags := 1 }, { task := some 2, flags := 2 }] }
        true).sem.count
      = -131072 + (wokenCount [{ task := some 2, flags := 2 }] : Int) *
          (RWSEM_ACTIVE_BIAS - RWSEM_WAITING_BIAS) :=
  (rwsem_do_wake_reader_batch.1 { task := some 9, flags := 0 }
      { count := -131072,
        wait_list := [{ task := some 1, flags := 1 }, { task := some 2, flags := 2 }] }
      { task := some 1, flags := 1 } [{ task := some 2, flags := 2 }] rfl (by decide)).1

/-- C4 counterexample: a downgrade wake on the one-reader queue grants its
run (waking task 3), and after the grant loop's iteration — an observable
point for the woken thread, which re-checks `waiter->task` without taking
`wait_lock` — the waiter's thread-handle has been cleared while the list
head has not yet been relinked: the cleared waiter is still linked,
refuting "any waiter whose task has been cleared is already unlinked". -/
theorem wake_grant_linked_cleared_cex :
    (__rwsem_do_wake { task := some 9, flags := 0 }
        { count := -65536, wait_list := [{ task := some 3, flags := 1 }] } true).woken
      = [some 3] ∧
      wakeLoopState [{ task := some 3, flags := 1 }] 1
        = [{ task := none, flags := 1 }] := by decide

/-- C4 amended: the batch grant clears each granted waiter's thread-handle
while it is still linked — after `k > 0` iterations of the grant loop the
cleared head waiter is still an element of the in-memory list — and the `n`
granted waiters are unlinked only afterwards, by the single relink of the
list head: on return, `wait_list` is the input queue with the granted run
dropped (so every waiter cleared by this call is by then unlinked), and the
engine woke the tasks of exactly the first `n` waiters, in order. -/
theorem wake_grant_clear_then_unlink :
    (∀ (w : Waiter) (l : List Waiter) (k : Nat), 0 < k →
        ({ w with task := none } : Waiter) ∈ wakeLoopState (w :: l) k) ∧
      (∀ (u : Waiter) (sem : RwSemaphore) (w : Waiter) (rest : List Waiter),
        sem.wait_list = w :: rest →
        w.flags &&& RWSEM_WAITING_FOR_WRITE = 0 →
        (__rwsem_do_wake u sem true).sem.wait_list
            = sem.wait_list.drop (wokenCount rest) ∧
          (__rwsem_do_wake u sem true).woken
            = (sem.wait_list.take (wokenCount rest)).map (fun x => x.task)) := by
  constructor
  · intro w l k hk
    cases k with
    | zero => omega
    | succ k' => simp [wakeLoopState]
  · intro u sem w rest hl hw
    obtain ⟨c, l⟩ := sem
    simp only at hl
    subst hl
    constructor <;> simp [__rwsem_do_wake, hw]

/-- Witness for C4's amended claim at a concrete input: after one grant-loop
iteration on a one-reader queue the cleared waiter is still linked, and the
engine's final list for that call is empty. -/
theorem wake_grant_clear_then_unlink_witness :
    ({ task := none, flags := 1 } : Waiter) ∈ wakeLoopState [{ task := some 5, flags := 1 }] 1 ∧
      (__rwsem_do_wake { task := some 9, flags := 0 }
          { count := -65536, wait_list := [{ task := some 5, flags := 1 }] } true).sem.wait_list
        = ([{ task := some 5, flags := 1 }] : List Waiter).drop (wokenCount []) :=
  ⟨wake_grant_clear_then_unlink.1 { task := some 5, flags := 1 } [] 1 (by decide),
    (wake_grant_clear_then_unlink.2 { task := some 9, flags := 0 }
        { count := -65536, wait_list := [{ task := some 5, flags := 1 }] }
        { task := some 5, flags := 1 } [] rfl (by decide)).1⟩

/-- C2 counterexample: two writers are queued (each contributing one waiting
unit, `count = 2 * RWSEM_WAITING_BIAS`), no holder is active, and the
LATER-queued writer (index 1, task 2) calls `try_get_writer_sem`: the call
succeeds and unlinks it, while the earlier-queued head writer (task 1) is
still waiting in the list — a later-queued writer acquired the lock before
an earlier-queued one, and the helper succeeded although the waiter passed
in is not the head. -/
theorem try_get_writer_sem_nonhead_steal_cex :
    (try_get_writer_sem
        { count := -131072,
          wait_list := [{ task := some 1, flags := 2 }, { task := some 2, flags := 2 }] }
        1 []).res = true ∧
      (try_get_writer_sem
          { count := -131072,
            wait_list := [{ task := some 1, flags := 2 }, { task := some 2, flags := 2 }] }
          1 []).sem.wait_list = [{ task := some 1, flags := 2 }] := by decide

/-- C2 amended: `try_get_writer_sem` succeeds only when the HEAD of
`wait_list` is a writer-waiter; the caller itself need not be the head, so
when two writers are queued the later one may steal ahead of the earlier
one (see the counterexample). -/
theorem try_get_writer_sem_success_head_writer
    (sem : RwSemaphore) (i : Nat) (env : List (Int × Int))
    (h : (try_get_writer_sem sem i env).res = true) :
    ∃ w rest, sem.wait_list = w :: rest ∧
      w.flags &&& RWSEM_WAITING_FOR_WRITE ≠ 0 := by
  obtain ⟨c, l⟩ := sem
  cases l with
  | nil => simp [try_get_writer_sem] at h
  | cons w rest =>
    by_cases hw : w.flags &&& RWSEM_WAITING_FOR_WRITE = 0
    · simp [try_get_writer_sem, hw] at h
    · exact ⟨w, rest, rfl, hw⟩

/-- Witness for C2's amended claim: the successful non-head steal of the
counterexample state indeed has a writer-waiter at the head. -/
theorem try_get_writer_sem_success_head_writer_witness :
    ∃ w rest,
      ({ count := -131072,
         wait_list := [{ task := some 1, flags := 2 }, { task := some 2, flags := 2 }] } :
          RwSemaphore).wait_list = w :: rest ∧
        w.flags &&& RWSEM_WAITING_FOR_WRITE ≠ 0 :=
  try_get_writer_sem_success_head_writer
    { count := -131072,
      wait_list := [{ task := some 1, flags := 2 }, { task := some 2, flags := 2 }] }
    1 [] (by decide)

/-- When the steal loop reports failure, its own fetch-adds have cancelled
out: the final counter is the initial counter plus exactly the interference
the environment applied during the consumed rounds. -/
theorem tryStealLoop_failure_count (adjustment : Int) :
    ∀ (env : List (Int × Int)) (c c' : Int),
      tryStealLoop adjustment c env = (false, c') →
      ∃ pre post, env = pre ++ post ∧
        c' = c + ((pre.map fun p => p.1 + p.2).sum) := by
  intro env
  induction env with
  | nil =>
    intro c c' h
    simp only [tryStealLoop] at h
    split at h
    · simp at h
    · simp only [Prod.mk.injEq] at h
      exact ⟨[], [], rfl, by simp [← h.2]⟩
  | cons a rest ih =>
    intro c c' h
    obtain ⟨d1, d2⟩ := a
    simp only [tryStealLoop] at h
    split at h
    · simp at h
    · split at h
      · simp only [Prod.mk.injEq] at h
        refine ⟨[(d1, d2)], rest, rfl, ?_⟩
        rw [← h.2]
        simp
        ring
      · obtain ⟨pre, post, hsplit, hc⟩ := ih _ _ h
        refine ⟨(d1, d2) :: pre, post, by simp [hsplit], ?_⟩
        rw [hc]
        simp
        ring

/-- C5: first conjunct — after an attempt whose pre-update value
`c + d1` has a non-zero active field, the loop rolls its adjustment back
(total movement of the round: only the interference `d1 + d2`), reports
failure when the rolled-back value's active field is non-zero, and retries
exactly when it is zero.  Second conjunct — whenever `try_get_writer_sem`
returns 0, the waiter is still linked (`wait_list` is untouched) and the
helper's cumulative net change to the counter is zero: the final count is
the initial count plus exactly the other threads' interference. -/
theorem try_get_writer_sem_failure_frame :
    (∀ (adj c d1 d2 : Int) (rest : List (Int × Int)),
        activeField (c + d1) ≠ 0 →
        tryStealLoop adj c ((d1, d2) :: rest) =
          if activeField (c + d1 + d2) ≠ 0 then (false, c + d1 + d2)
          else tryStealLoop adj (c + d1 + d2) rest) ∧
      (∀ (sem : RwSemaphore) (i : Nat) (env : List (Int × Int)),
        (try_get_writer_sem sem i env).res = false →
        (try_get_writer_sem sem i env).sem.wait_list = sem.wait_list ∧
          ∃ pre post, env = pre ++ post ∧
            (try_get_writer_sem sem i env).sem.count =
              sem.count + ((pre.map fun p => p.1 + p.2).sum)) := by
  constructor
  · intro adj c d1 d2 rest h
    have he : c + d1 + adj + d2 - adj = c + d1 + d2 := by ring
    simp only [tryStealLoop, he]
    rw [if_neg h]
  · intro sem i env h
    obtain ⟨c, l⟩ := sem
    cases l with
    | nil =>
      exact ⟨rfl, [], env, rfl, by simp [try_get_writer_sem]⟩
    | cons w rest =>
      by_cases hw : w.flags &&& RWSEM_WAITING_FOR_WRITE = 0
      · exact ⟨by simp [try_get_writer_sem, hw], [], env, rfl,
          by simp [try_get_writer_sem, hw]⟩
      · rcases hts : tryStealLoop
            (stealAdjustment { count := c, wait_list := w :: rest } i) c env with ⟨b, c'⟩
        cases b with
        | true => simp [try_get_writer_sem, hw, hts] at h
        | false =>
          obtain ⟨pre, post, hsplit, hc⟩ := tryStealLoop_failure_count _ _ _ _ hts
          exact ⟨by simp [try_get_writer_sem, hw, hts], pre, post, hsplit,
            by simp [try_get_writer_sem, hw, hts, hc]⟩

/-- Witness for C5 at concrete inputs: a failed round (active holder
present, no interference) leaves the counter at its initial value and the
single queued writer still linked. -/
theorem try_get_writer_sem_failure_frame_witness :
    tryStealLoop (-65535) 1 [((0 : Int), (0 : Int))] =
        (if activeField ((1 : Int) + 0 + 0) ≠ 0 then (false, (1 : Int) + 0 + 0)
         else tryStealLoop (-65535) ((1 : Int) + 0 + 0) []) ∧
      (try_get_writer_sem { count := 1, wait_list := [{ task := some 1, flags := 2 }] }
          0 []).sem.wait_list = [{ task := some 1, flags := 2 }] :=
  ⟨try_get_writer_sem_failure_frame.1 (-65535) 1 0 0 [] (by decide),
    (try_get_writer_sem_failure_frame.2
        { count := 1, wait_list := [{ task := some 1, flags := 2 }] } 0 [] (by decide)).1⟩

/-- C6 counterexample: with no active holder and a single queued writer, the
steal succeeds and unlinks the waiter — but the waiter's thread-handle
field is NOT cleared: `task` is still `some 5` after the call (the function
only drops the task reference and marks the task runnable), refuting
"clears the waiter's thread-handle field". -/
theorem try_get_writer_sem_task_not_cleared_cex :
    (try_get_writer_sem { count := 0, wait_list := [{ task := some 5, flags := 2 }] }
        0 []).res = true ∧
      (try_get_writer_sem { count := 0, wait_list := [{ task := some 5, flags := 2 }] }
          0 []).sem.wait_list = [] ∧
      (try_get_writer_sem { count := 0, wait_list := [{ task := some 5, flags := 2 }] }
          0 []).waiter.task = some 5 := by decide

/-- The interference delta the environment applies to the counter before the
steal loop's first atomic attempt (zero once the environment is
quiescent). -/
def firstDelta : List (Int × Int) → Int
  | [] => 0
  | (d1, _) :: _ => d1

/-- C6 amended: when the head of the queue is a writer-waiter and the first
atomic attempt's pre-update value has a zero active field, the helper
succeeds: it keeps the adjustment it added, unlinks the caller's waiter from
`wait_list`, and returns 1 — and the waiter record it hands back is the
queue entry unchanged: its thread-handle field is not cleared. -/
theorem try_get_writer_sem_zero_active_success
    (sem : RwSemaphore) (i : Nat) (env : List (Int × Int))
    (w : Waiter) (rest : List Waiter)
    (hl : sem.wait_list = w :: rest)
    (hw : w.flags &&& RWSEM_WAITING_FOR_WRITE ≠ 0)
    (hz : activeField (sem.count + firstDelta env) = 0) :
    try_get_writer_sem sem i env =
      { res := true,
        sem := { count := sem.count + firstDelta env + stealAdjustment sem i,
                 wait_list := sem.wait_list.eraseIdx i },
        waiter := sem.wait_list.getD i { task := none, flags := 0 } } := by
  obtain ⟨c, l⟩ := sem
  simp only at hl hz ⊢
  subst hl
  have hloop : tryStealLoop (stealAdjustment { count := c, wait_list := w :: rest } i) c env
      = (true, c + firstDelta env +
          stealAdjustment { count := c, wait_list := w :: rest } i) := by
    cases env with
    | nil =>
      simp only [tryStealLoop, firstDelta]
      rw [if_pos (by simpa [firstDelta] using hz)]
      norm_num
    | cons a rest' =>
      obtain ⟨d1, d2⟩ := a
      simp only [firstDelta] at hz
      simp only [tryStealLoop]
      rw [if_pos hz]
      simp [firstDelta]
  simp [try_get_writer_sem, hw, hloop]

/-- Witness for C6's amended claim at a concrete input: one queued writer,
idle counter, quiescent environment. -/
theorem try_get_writer_sem_zero_active_success_witness :
    try_get_writer_sem { count := 0, wait_list := [{ task := some 7, flags := 2 }] } 0 []
      = { res := true,
          sem := { count := (0 : Int) + firstDelta [] +
                     stealAdjustment
                       { count := 0, wait_list := [{ task := some 7, flags := 2 }] } 0,
                   wait_list := ([{ task := some 7, flags := 2 }] : List Waiter).eraseIdx 0 },
          waiter := ([{ task := some 7, flags := 2 }] : List Waiter).getD 0
                      { task := none, flags := 0 } } :=
  try_get_writer_sem_zero_active_success
    { count := 0, wait_list := [{ task := some 7, flags := 2 }] } 0 []
    { task := some 7, flags := 2 } [] rfl (by decide) (by decide)

/-- C7: the enqueue phase of the common slow path appends the new waiter
(carrying the current task and the caller's intent flags) at the tail of
`wait_list`, applies the intent-specific `adjustment` to the counter in one
atomic update, and invokes the wake engine in non-downgrading mode exactly
when the resulting count's active field is zero, all inside the
`wait_lock` critical section; the read and write entry points instantiate
the adjustment with `RWSEM_WAITING_BIAS - RWSEM_ACTIVE_BIAS` and
`-RWSEM_ACTIVE_BIAS` respectively. -/
theorem rwsem_down_failed_common_enqueue_spec
    (u : Waiter) (sem : RwSemaphore) (tsk : Nat) (fl : Nat) (adj : Int) :
    (rwsem_down_failed_common_enqueue u sem tsk fl adj).sem.wait_list
        = sem.wait_list ++ [{ task := some tsk, flags := fl }] ∧
      (rwsem_down_failed_common_enqueue u sem tsk fl adj).sem.count
        = sem.count + adj ∧
      ((rwsem_down_failed_common_enqueue u sem tsk fl adj).wakeInvoked = true
        ↔ activeField (sem.count + adj) = 0) ∧
      rwsem_down_read_failed_enqueue u sem tsk
        = rwsem_down_failed_common_enqueue u sem tsk RWSEM_WAITING_FOR_READ
            (RWSEM_WAITING_BIAS - RWSEM_ACTIVE_BIAS) ∧
      rwsem_down_write_failed_enqueue u sem tsk
        = rwsem_down_failed_common_enqueue u sem tsk RWSEM_WAITING_FOR_WRITE
            (-RWSEM_ACTIVE_BIAS) := by
  refine ⟨?_, ?_, ?_, rfl, rfl⟩ <;>
    · rw [rwsem_down_failed_common_enqueue]
      split <;>
        simp_all [__rwsem_do_wake]

/-- C8: behaviour of the wait loop, one round per schedule entry.  A round
whose first test finds the thread-handle cleared terminates with `granted`
at once; a round of a write-intent waiter whose `try_get_writer_sem` call
(made with `wait_lock` held) succeeds terminates with `stolen`, returning
the stolen semaphore; every other round — write intent with a failed steal,
or read intent — releases the lock and re-suspends, i.e. continues as the
same loop on the environment-updated state.  Finally, the loop only ever
terminates through `stolen` for a waiter whose flags equal
`RWSEM_WAITING_FOR_WRITE`. -/
theorem rwsem_wait_loop_spec :
    (∀ (sem : RwSemaphore) (w : Waiter) (i : Nat) (act : WaitEnv)
        (sched : List WaitEnv),
        w.task = none →
        rwsem_wait_loop sem w i (act :: sched) = .granted sem) ∧
      (∀ (sem : RwSemaphore) (w : Waiter) (i : Nat) (act : WaitEnv)
          (sched : List WaitEnv),
        w.task ≠ none → w.flags = RWSEM_WAITING_FOR_WRITE →
        (try_get_writer_sem sem i act.stealEnv).res = true →
        rwsem_wait_loop sem w i (act :: sched)
          = .stolen (try_get_writer_sem sem i act.stealEnv).sem) ∧
      (∀ (sem : RwSemaphore) (w : Waiter) (i : Nat) (act : WaitEnv)
          (sched : List WaitEnv),
        w.task ≠ none → w.flags = RWSEM_WAITING_FOR_WRITE →
        (try_get_writer_sem sem i act.stealEnv).res = false →
        rwsem_wait_loop sem w i (act :: sched)
          = rwsem_wait_loop
              { count := (try_get_writer_sem sem i act.stealEnv).sem.count +
                  act.countDelta,
                wait_list := (try_get_writer_sem sem i act.stealEnv).sem.wait_list }
              (if act.clearTask then { w with task := none } else w) i sched) ∧
      (∀ (sem : RwSemaphore) (w : Waiter) (i : Nat) (act : WaitEnv)
          (sched : List WaitEnv),
        w.task ≠ none → w.flags ≠ RWSEM_WAITING_FOR_WRITE →
        rwsem_wait_loop sem w i (act :: sched)
          = rwsem_wait_loop { sem with count := sem.count + act.countDelta }
              (if act.clearTask then { w with task := none } else w) i sched) ∧
      (∀ (sched : List WaitEnv) (sem : RwSemaphore) (w : Waiter) (i : Nat)
          (s' : RwSemaphore),
        rwsem_wait_loop sem w i sched = .stolen s' →
        w.flags = RWSEM_WAITING_FOR_WRITE) := by
  refine ⟨?_, ?_, ?_, ?_, ?_⟩
  · intro sem w i act sched ht
    simp [rwsem_wait_loop, ht]
  · intro sem w i act sched ht hf hs
    simp [rwsem_wait_loop, ht, hf, hs]
  · intro sem w i act sched ht hf hs
    simp [rwsem_wait_loop, ht, hf, hs]
  · intro sem w i act sched ht hf
    simp [rwsem_wait_loop, ht, hf]
  · intro sched
    induction sched with
    | nil =>
      intro sem w i s' h
      simp [rwsem_wait_loop] at h
    | cons act sched ih =>
      intro sem w i s' h
      by_cases ht : w.task = none
      · simp [rwsem_wait_loop, ht] at h
      · by_cases hf : w.flags = RWSEM_WAITING_FOR_WRITE
        · exact hf
        · simp only [rwsem_wait_loop] at h
          rw [if_neg ht, if_neg hf] at h
          have hrec := ih _ _ i s' h
          cases hb : act.clearTask <;> simp [hb] at hrec <;> exact absurd hrec hf

/-- Witness for C8 at a concrete input: a waiter whose thread-handle is
already cleared leaves the loop immediately as `granted`. -/
theorem rwsem_wait_loop_spec_witness :
    rwsem_wait_loop { count := 0, wait_list := [] } { task := none, flags := 1 } 0
        [{ clearTask := false, countDelta := 0, stealEnv := [] }]
      = .granted { count := 0, wait_list := [] } :=
  rwsem_wait_loop_spec.1 { count := 0, wait_list := [] } { task := none, flags := 1 } 0
    { clearTask := false, countDelta := 0, stealEnv := [] } [] rfl
